import Mathlib

/-!
Verification development for the `i18n-leptos` crate: a shallow embedding of
its reactive language-state synchronization engine (`src/ctx.rs`, `src/lib.rs`,
`src/utils.rs`) and of the runtime behaviour of the code emitted by the
`rtr!`/`rattr!` macros (`i18n-leptos-macros`), together with theorems settling
the specification claims.

Conventions of the embedding:
* `LanguageIdentifier` stands for `i18n::LanguageIdentifier` of the external
  `i18n` crate (a validated, canonically stringifiable locale tag); it is
  modelled by its interface invariant (lossless string round trip).
* Browser local storage for the single configured key is a `StorageState`;
  the `available` flag captures whether the backend accepts reads and writes
  (e.g. `false` in private-browsing mode).
* Panics / thrown JS exceptions are modelled by `Option`/`PanicOr` results
  (`none`/`panicked` = the call does not return).
* Event dispatch (`window().dispatch_event`) invokes registered listeners
  synchronously, so `change_langid` composed with the local-storage listener
  is a single state transition producing an ordered effect trace.
-/

namespace I18nLeptos

/-- Validity of a locale-tag string: nonempty, letters, digits and dashes.
This is the model's stand-in for "parses as a `LanguageIdentifier`". -/
def langTagValid (s : String) : Bool :=
  !s.isEmpty && s.toList.all (fun c => c.isAlpha || c.isDigit || c == '-')

/-- Modelled from the spec: `i18n::LanguageIdentifier` (external `i18n` crate) —
"an opaque, validated, canonical-string-serializable value. Invariant: always
parses losslessly to/from its string form; equality is structural." -/
structure LanguageIdentifier where
  tag : String
  validTag : langTagValid tag = true

instance : DecidableEq LanguageIdentifier := fun a b =>
  if h : a.tag = b.tag then
    Decidable.isTrue (by cases a; cases b; subst h; rfl)
  else
    Decidable.isFalse (fun hh => h (congrArg LanguageIdentifier.tag hh))

/-- `LanguageIdentifier::to_string` (canonical string form). -/
def LanguageIdentifier.toTag (l : LanguageIdentifier) : String := l.tag

/-- `LanguageIdentifier::from_str`: succeeds exactly on valid tags. -/
def LanguageIdentifier.fromStr (s : String) : Option LanguageIdentifier :=
  if h : langTagValid s = true then some ⟨s, h⟩ else none

theorem LanguageIdentifier.fromStr_toTag (l : LanguageIdentifier) :
    LanguageIdentifier.fromStr (LanguageIdentifier.toTag l) = some l := by
  cases l with
  | mk tag h => simp [LanguageIdentifier.fromStr, LanguageIdentifier.toTag, h]

/-- Result of a call that may panic (`unwrap` / `unwrap_throw`):
`panicked` means the call threw and never returned. -/
inductive PanicOr (α : Type) where
  | panicked
  | ok (val : α)
deriving DecidableEq

/-- `i18n::Message`: resolved id, resolved value, and the map from attribute
name to its resolved string (`attrs: HashMap<String, String>` in the source,
embedded as an association list). -/
structure Message where
  id : String
  value : String
  attrs : List (String × String)
deriving DecidableEq

/-- Lookup in the attribute map (`self.msg.read().attrs.get(attr)`). -/
def attrsFind (attrs : List (String × String)) (name : String) : Option String :=
  (attrs.find? (fun p => p.1 == name)).map Prod.snd

/-- `ReactiveMessage` from `src/lib.rs`: wraps `Signal::derive(signal_fn)`.
The stored closure derives the `Message` from the current language; leptos
derived signals are unmemoized, so every read evaluates the closure. -/
structure ReactiveMessage where
  compute : LanguageIdentifier → Message

/-- `ReactiveMessage::attr` (src/lib.rs lines 86-94): read the current message,
look the attribute up, and fall back to the attribute name itself. -/
def ReactiveMessage.attr (rm : ReactiveMessage) (langid : LanguageIdentifier)
    (name : String) : String :=
  (attrsFind (rm.compute langid).attrs name).getD name

/-- `ReactiveMessage::attr_untracked` (src/lib.rs lines 96-104): identical
value computation; only the reactive-graph subscription differs. -/
def ReactiveMessage.attr_untracked (rm : ReactiveMessage)
    (langid : LanguageIdentifier) (name : String) : String :=
  (attrsFind (rm.compute langid).attrs name).getD name

/-! Persistence backend (browser local storage at the single configured key). -/

/-- State of the local-storage backend for the configured key: the stored
item, whether the backend is usable, and the count of issued write calls. -/
structure StorageState where
  item : Option String
  available : Bool
  setCalls : Nat
deriving DecidableEq

/-- Modelled from the spec: the `Result`-returning `utils::local_storage::set`
that `src/ctx.rs` calls (`if let Err(err) = utils::local_storage::set(..)`);
the `utils.rs` variant matching `ctx.rs` is missing from src. Per the spec,
a failed write is reported as an error value, not a crash. The write call is
counted whether or not it succeeds. -/
def localStorageSetRes (st : StorageState) (v : String) : StorageState × Bool :=
  if st.available then
    ({ st with item := some v, setCalls := st.setCalls + 1 }, true)
  else
    ({ st with setCalls := st.setCalls + 1 }, false)

/-- `utils::local_storage::set` as it stands in `src/utils.rs` (lines 7-14):
`set_item(..).unwrap_throw()` — a failed write throws, modelled as `none`. -/
def localStorageSetThrow (st : StorageState) (v : String) : Option StorageState :=
  if st.available then
    some { st with item := some v, setCalls := st.setCalls + 1 }
  else
    none

/-- `utils::local_storage::get` read of the configured key: the stored item
when the backend is usable (`ctx.rs` treats `Err` and `Ok(None)` alike). -/
def localStorageGet (st : StorageState) : Option String :=
  if st.available then st.item else none

/-! Language state controller. -/

/-- Observable effects of one controller transition, in issue order. -/
inductive Effect where
  | broadcastEvent (payload : String)
  | persistWrite (value : String)
  | signalSet (l : LanguageIdentifier)
  | logError
deriving DecidableEq

/-- The session state owned by the controller: the reactive langid value
(`ArcRwSignal`), the storage backend, the payloads of dispatched
change-notification events, and the count of logged errors. -/
structure LangState where
  langid : LanguageIdentifier
  storage : StorageState
  broadcasts : List String
  errors : Nat
deriving DecidableEq

/-- The change-event listener registered by `setup_local_storage_handler`
(src/ctx.rs lines 97-111). On an event whose detail is not a string it logs
and returns; otherwise it first writes the raw string to local storage
(logging a write failure), then sets the reactive value to the parsed
identifier, falling back to the captured initial identifier on parse failure.
Returns the new state and the ordered effect trace. -/
def handleLangChangeEvent (initialLangid : LanguageIdentifier)
    (detail : Option String) (st : LangState) : LangState × List Effect :=
  match detail with
  | none => ({ st with errors := st.errors + 1 }, [Effect.logError])
  | some s =>
      let wr := localStorageSetRes st.storage s
      let newLangid := (LanguageIdentifier.fromStr s).getD initialLangid
      let newErrors := if wr.2 then st.errors else st.errors + 1
      let writeEffects : List Effect :=
        if wr.2 then [Effect.persistWrite s]
        else [Effect.persistWrite s, Effect.logError]
      ({ st with storage := wr.1, errors := newErrors, langid := newLangid },
       writeEffects ++ [Effect.signalSet newLangid])

/-- `change_langid` (src/ctx.rs lines 35-45) with the local-storage listener
registered: it only dispatches the custom change event carrying the new
identifier's string form; `dispatch_event` runs the listener synchronously,
which then persists and updates the signal. -/
def change_langid (initialLangid : LanguageIdentifier)
    (l : LanguageIdentifier) (st : LangState) : LangState × List Effect :=
  let payload := l.toTag
  let st1 := { st with broadcasts := st.broadcasts ++ [payload] }
  let stepped := handleLangChangeEvent initialLangid (some payload) st1
  (stepped.1, Effect.broadcastEvent payload :: stepped.2)

/-- One tick of the storage-polling interval (src/lib.rs lines 210-226):
read the stored value; if present and different from the current value's
string form and it parses, set the signal to it; otherwise do nothing. -/
def pollStorageTick (st : LangState) : LangState :=
  match localStorageGet st.storage with
  | some storedTag =>
      if storedTag != st.langid.toTag then
        match LanguageIdentifier.fromStr storedTag with
        | some newL => { st with langid := newL }
        | none => st
      else st
  | none => st

/-- `provide_langid_context` with a `LocalStorage` source (src/ctx.rs lines
52-77 plus the initial block of `setup_local_storage_handler`, lines 84-89):
the initial identifier is the explicit one when supplied, else the parsed
navigator language (default tag "en-US"); parse failure at startup panics
(`unwrap_throw`, modelled as `none`). Then, if local storage holds a value
for the key, the signal is set to its parse, falling back to the initial. -/
def provide_langid_context (explicit : Option LanguageIdentifier)
    (navLang : Option String) (storage : StorageState) : Option LangState :=
  let navDefault : String := "en-US"
  let initOpt : Option LanguageIdentifier :=
    match explicit with
    | some l => some l
    | none => LanguageIdentifier.fromStr (navLang.getD navDefault)
  match initOpt with
  | none => none
  | some initialLangid =>
      let st0 : LangState := ⟨initialLangid, storage, [], 0⟩
      match localStorageGet storage with
      | some storedTag =>
          some { st0 with
                 langid := (LanguageIdentifier.fromStr storedTag).getD initialLangid }
      | none => some st0

/-- The change-event listener of the compiled crate (src/lib.rs lines
194-205): `data.detail().as_string().unwrap()` then the throwing
`utils::local_storage::set` of src/utils.rs, then `langid.set(..)`.
`none` means the listener panicked before updating the signal. -/
def handleLangChangeEventLib (initialLangid : LanguageIdentifier)
    (detail : Option String) (st : LangState) : Option LangState :=
  match detail with
  | none => none
  | some s =>
      match localStorageSetThrow st.storage s with
      | none => none
      | some storage1 =>
          let newLangid := (LanguageIdentifier.fromStr s).getD initialLangid
          some { st with storage := storage1, langid := newLangid }

/-! Context lookup (src/lib.rs lines 142-157, src/ctx.rs lines 21-29). -/

/-- The `ArcRwSignal` handle stored in the context: an identity plus the
current value. -/
structure ArcRwSignalL where
  handle : Nat
  value : LanguageIdentifier
deriving DecidableEq

/-- The read-only view produced by `ArcRwSignal::read_only`. -/
structure ArcReadSignalL where
  handle : Nat
  value : LanguageIdentifier
deriving DecidableEq

/-- `ArcRwSignal::read_only`: same underlying signal, read-only view. -/
def ArcRwSignalL.read_only (s : ArcRwSignalL) : ArcReadSignalL :=
  ⟨s.handle, s.value⟩

/-- The `LangIdContext` newtype wrapper around the langid signal. -/
structure LangIdContext where
  signal : ArcRwSignalL
deriving DecidableEq

/-- `use_langid`: `use_context::<LangIdContext>().map(|ctx| ctx.0.read_only())`;
the argument is the context registry's entry (absent = not provided). -/
def use_langid (ctx : Option LangIdContext) : Option ArcReadSignalL :=
  ctx.map (fun c => c.signal.read_only)

/-- `expect_langid`: `use_langid().unwrap()` — panics exactly when no
context was provided. -/
def expect_langid (ctx : Option LangIdContext) : PanicOr ArcReadSignalL :=
  match use_langid ctx with
  | some s => PanicOr.ok s
  | none => PanicOr.panicked

/-! Runtime behaviour of the `rtr!` expansion (i18n-leptos-macros/src/lib.rs
lines 190-257) and of `ReactiveMessage` attribute reads. -/

/-- The query object built by the expansion: `i18n::Query::new(id)` chained
with `.with_arg(..)` and `.with_attr_arg(..)` calls. -/
structure Query where
  id : String
  args : List (String × String)
  attrArgs : List (String × String × String)
deriving DecidableEq

/-- `i18n::Query::new`. -/
def Query.new (id : String) : Query := ⟨id, [], []⟩

/-- `Query::with_arg`. -/
def Query.with_arg (q : Query) (k v : String) : Query :=
  { q with args := q.args ++ [(k, v)] }

/-- `Query::with_attr_arg`. -/
def Query.with_attr_arg (q : Query) (attrName k v : String) : Query :=
  { q with attrArgs := q.attrArgs ++ [(attrName, k, v)] }

/-- A Localizer (the external `i18n::Locales::query`): resolves a query under
a language to a `Message` or a list of errors. -/
def Localizer : Type :=
  LanguageIdentifier → Query → Except (List String) Message

/-- The query the `rtr!` expansion builds from the message-id literal and the
collected main and attribute arguments. -/
def buildQuery (messageId : String) (mainArgs : List (String × String))
    (attrArgs : List (String × String × String)) : Query :=
  let q1 := mainArgs.foldl (fun q kv => q.with_arg kv.1 kv.2) (Query.new messageId)
  attrArgs.foldl (fun q a => q.with_attr_arg a.1 a.2.1 a.2.2) q1

/-- The closure the `rtr!` expansion passes to `ReactiveMessage::new` when no
`on_error` handler is supplied: query the Localizer under the current
language; on error substitute `Message { id: ID, value: ID, attrs: empty }`
with ID the requested message id. -/
def rtrMessageFn (locales : Localizer) (messageId : String)
    (mainArgs : List (String × String))
    (attrArgs : List (String × String × String))
    (langid : LanguageIdentifier) : Message :=
  match locales langid (buildQuery messageId mainArgs attrArgs) with
  | Except.ok m => m
  | Except.error _ => ⟨messageId, messageId, []⟩

/-- The `ReactiveMessage` the default `rtr!` expansion evaluates to. -/
def rtrExpand (locales : Localizer) (messageId : String)
    (mainArgs : List (String × String))
    (attrArgs : List (String × String × String)) : ReactiveMessage :=
  ⟨rtrMessageFn locales messageId mainArgs attrArgs⟩

/-- One tracked attribute read of the expansion's `ReactiveMessage`,
instrumented with a Localizer-invocation counter: `Signal::derive` stores the
closure and re-evaluates it on every read, and the closure performs exactly
one `locales.query(..)` call, so each read adds one invocation. -/
def rtrAttrReadCounted (locales : Localizer) (messageId : String)
    (mainArgs : List (String × String))
    (attrArgs : List (String × String × String))
    (langid : LanguageIdentifier) (name : String) (calls : Nat) :
    String × Nat :=
  ((rtrExpand locales messageId mainArgs attrArgs).attr langid name, calls + 1)

/-- `n` repeated tracked reads of the same attribute with identical arguments
under an unchanged language (one Message generation), threading the
Localizer-invocation counter; returns the values read and the final count. -/
def rtrAttrReadsCounted (locales : Localizer) (messageId : String)
    (mainArgs : List (String × String))
    (attrArgs : List (String × String × String))
    (langid : LanguageIdentifier) (name : String) :
    Nat → Nat → List String × Nat
  | 0, calls => ([], calls)
  | n + 1, calls =>
      let r1 := rtrAttrReadCounted locales messageId mainArgs attrArgs langid name calls
      let rest := rtrAttrReadsCounted locales messageId mainArgs attrArgs langid name n r1.2
      (r1.1 :: rest.1, rest.2)

/-! Trace predicates used to state the claimed effect ordering. -/

/-- Recognizer for persistence-write effects. -/
def isPersistWrite : Effect → Bool
  | Effect.persistWrite _ => true
  | _ => false

/-- Recognizer for change-notification broadcast effects. -/
def isBroadcastEvent : Effect → Bool
  | Effect.broadcastEvent _ => true
  | _ => false

/-- Whether a trace issues a persistence write strictly before its first
change-notification broadcast (the ordering the spec claims for `set`). -/
def persistBeforeBroadcast (effs : List Effect) : Bool :=
  match effs.findIdx? isPersistWrite, effs.findIdx? isBroadcastEvent with
  | some i, some j => decide (i < j)
  | some _, none => true
  | none, _ => false

/-! Concrete values used by witnesses and counterexamples. -/

/-- A valid locale tag. -/
def tagEnUS : String := "en-US"

/-- Another valid locale tag. -/
def tagDe : String := "de"

/-- A string that does not parse as a language identifier. -/
def tagBad : String := "not a tag!"

/-- A demo message id. -/
def demoGreeting : String := "greeting"

/-- A demo resolved message value. -/
def demoHello : String := "Hello"

/-- A demo attribute name. -/
def demoKeyA : String := "x"

/-- A demo resolved attribute value. -/
def demoAttrVal : String := "ex"

/-- A demo localization error entry. -/
def demoErr : String := "missing"

/-- The language identifier for "en-US". -/
def enUS : LanguageIdentifier := ⟨tagEnUS, by decide⟩

/-- The language identifier for "de". -/
def deDE : LanguageIdentifier := ⟨tagDe, by decide⟩

/-- An empty, usable storage backend. -/
def storageEmpty : StorageState := ⟨none, true, 0⟩

/-- A session state with current language "en-US" and usable empty storage. -/
def demoAvailState : LangState := ⟨enUS, storageEmpty, [], 0⟩

/-- A session state whose current language "de" differs from the fallback
"en-US" and whose storage holds an unparsable string. -/
def cexPoll : LangState := ⟨deDE, ⟨some tagBad, true, 0⟩, [], 0⟩

/-- A session state whose stored value already equals the current language. -/
def cexIdem : LangState := ⟨enUS, ⟨some tagEnUS, true, 0⟩, [], 0⟩

/-- A usable storage backend holding the tag "de". -/
def storageDe : StorageState := ⟨some tagDe, true, 0⟩

/-- An unavailable storage backend (writes fail). -/
def storageDown : StorageState := ⟨some tagEnUS, false, 0⟩

/-- A session state over the unavailable backend. -/
def cexDown : LangState := ⟨enUS, storageDown, [], 0⟩

/-- A Localizer stub that always resolves, echoing the query id and exposing
one attribute. -/
def demoLocales : Localizer :=
  fun _ q => Except.ok ⟨q.id, demoHello, [(demoKeyA, demoAttrVal)]⟩

/-- A Localizer stub that always fails. -/
def failingLocales : Localizer :=
  fun _ _ => Except.error [demoErr]

/-- A ReactiveMessage whose message has an empty attribute map. -/
def demoPrecomputed : ReactiveMessage := ⟨fun _ => ⟨demoGreeting, demoHello, []⟩⟩

/-! Claim theorems. -/

/-- C1: after `change_langid(L)` completes and its change event is handled by
the local-storage listener (with a usable durable backend), the untracked
read of the current language equals `L` and the stored value for the
configured key equals `L`'s canonical string form. -/
theorem c1_change_langid_syncs (initialLangid l : LanguageIdentifier)
    (st : LangState) (h : st.storage.available = true) :
    (change_langid initialLangid l st).1.langid = l ∧
    (change_langid initialLangid l st).1.storage.item = some l.toTag := by
  simp [change_langid, handleLangChangeEvent, localStorageSetRes, h,
    LanguageIdentifier.fromStr_toTag]

/-- C1 witness: the theorem applied at `L = "de"` over a usable backend. -/
theorem c1_change_langid_syncs_witness :
    demoAvailState.storage.available = true ∧
    ((change_langid enUS deDE demoAvailState).1.langid = deDE ∧
     (change_langid enUS deDE demoAvailState).1.storage.item = some deDE.toTag) :=
  ⟨rfl, c1_change_langid_syncs enUS deDE demoAvailState rfl⟩

/-- C2 counterexample: with current language "de" (differing from the
configured fallback "en-US") and the stored value an unparsable string, one
storage-polling tick leaves the whole state — in particular the current
language — unchanged: the polling path never applies the fallback, so the
state is left at the prior non-fallback value. -/
theorem c2_polling_no_fallback_counterexample :
    LanguageIdentifier.fromStr tagBad = none ∧
    pollStorageTick cexPoll = cexPoll ∧
    cexPoll.langid ≠ enUS := by
  refine ⟨by decide, by decide, by decide⟩

/-- C2 amended: on parse failure of an externally-sourced string, the
change-event listener sets the current language to the configured fallback
(initial) identifier, but the storage-polling path leaves the current state
unchanged rather than falling back. -/
theorem c2_parse_failure_amended (initialLangid : LanguageIdentifier)
    (s : String) (st stPoll : LangState)
    (h : LanguageIdentifier.fromStr s = none)
    (hpoll : localStorageGet stPoll.storage = some s) :
    (handleLangChangeEvent initialLangid (some s) st).1.langid = initialLangid ∧
    pollStorageTick stPoll = stPoll := by
  constructor
  · simp [handleLangChangeEvent, h]
  · simp [pollStorageTick, hpoll, h]

/-- C2 witness: the amended theorem applied to the unparsable string
"not a tag!" with prior current language "de". -/
theorem c2_parse_failure_amended_witness :
    (LanguageIdentifier.fromStr tagBad = none ∧
     localStorageGet cexPoll.storage = some tagBad) ∧
    ((handleLangChangeEvent enUS (some tagBad) demoAvailState).1.langid = enUS ∧
     pollStorageTick cexPoll = cexPoll) :=
  ⟨⟨by decide, by decide⟩,
   c2_parse_failure_amended enUS tagBad demoAvailState cexPoll (by decide) (by decide)⟩

/-- C3 counterexample: reconciling a change event whose value equals the
already-current language still issues one additional persistence-backend
write call (the listener writes unconditionally), refuting "performs no
additional persistence-backend write". -/
theorem c3_redundant_write_counterexample :
    cexIdem.langid.toTag = tagEnUS ∧
    (handleLangChangeEvent enUS (some tagEnUS) cexIdem).1.storage.setCalls =
      cexIdem.storage.setCalls + 1 ∧
    cexIdem.storage.setCalls + 1 ≠ cexIdem.storage.setCalls := by
  refine ⟨rfl, by decide, by decide⟩

/-- C3 amended: reconciling to the already-current value emits no additional
change-notification broadcast and leaves the reactive value and the stored
value unchanged, but the change-event listener still issues one redundant
persistence write of the same string; the polling path performs no write and
no update. -/
theorem c3_reconcile_current_amended (initialLangid : LanguageIdentifier)
    (st stPoll : LangState) (h : st.storage.available = true)
    (hpoll : localStorageGet stPoll.storage = some stPoll.langid.toTag) :
    (handleLangChangeEvent initialLangid (some st.langid.toTag) st).1.langid = st.langid ∧
    (handleLangChangeEvent initialLangid (some st.langid.toTag) st).1.broadcasts = st.broadcasts ∧
    (handleLangChangeEvent initialLangid (some st.langid.toTag) st).1.storage.item = some st.langid.toTag ∧
    (handleLangChangeEvent initialLangid (some st.langid.toTag) st).1.storage.setCalls = st.storage.setCalls + 1 ∧
    pollStorageTick stPoll = stPoll := by
  refine ⟨?_, ?_, ?_, ?_, ?_⟩ <;>
    simp [handleLangChangeEvent, localStorageSetRes, h,
      LanguageIdentifier.fromStr_toTag, pollStorageTick, hpoll]

/-- C3 witness: the amended theorem applied to a state whose stored value
already equals the current language "en-US". -/
theorem c3_reconcile_current_amended_witness :
    (cexIdem.storage.available = true ∧
     localStorageGet cexIdem.storage = some cexIdem.langid.toTag) ∧
    ((handleLangChangeEvent enUS (some cexIdem.langid.toTag) cexIdem).1.langid = cexIdem.langid ∧
     (handleLangChangeEvent enUS (some cexIdem.langid.toTag) cexIdem).1.broadcasts = cexIdem.broadcasts ∧
     (handleLangChangeEvent enUS (some cexIdem.langid.toTag) cexIdem).1.storage.item = some cexIdem.langid.toTag ∧
     (handleLangChangeEvent enUS (some cexIdem.langid.toTag) cexIdem).1.storage.setCalls = cexIdem.storage.setCalls + 1 ∧
     pollStorageTick cexIdem = cexIdem) :=
  ⟨⟨rfl, by decide⟩,
   c3_reconcile_current_amended enUS cexIdem cexIdem rfl (by decide)⟩

/-- C4 counterexample: for a concrete `set` call the effect trace is
broadcast, then persistence write, then in-memory update — so the
persistence write is not issued before the notification broadcast and the
in-memory update is last, not first. -/
theorem c4_order_counterexample :
    (change_langid enUS deDE demoAvailState).2 =
      [Effect.broadcastEvent deDE.toTag, Effect.persistWrite deDE.toTag,
       Effect.signalSet deDE] ∧
    persistBeforeBroadcast (change_langid enUS deDE demoAvailState).2 = false := by
  refine ⟨by decide, by decide⟩

/-- C4 amended: a `set` call first issues the change-notification broadcast;
the synchronously invoked listener then performs the persistence write and
only then updates the in-memory reactive value. -/
theorem c4_order_amended (initialLangid l : LanguageIdentifier)
    (st : LangState) (h : st.storage.available = true) :
    (change_langid initialLangid l st).2 =
      [Effect.broadcastEvent l.toTag, Effect.persistWrite l.toTag,
       Effect.signalSet l] := by
  simp [change_langid, handleLangChangeEvent, localStorageSetRes, h,
    LanguageIdentifier.fromStr_toTag]

/-- C4 witness: the amended trace at a concrete `set("de")` call. -/
theorem c4_order_amended_witness :
    demoAvailState.storage.available = true ∧
    (change_langid enUS deDE demoAvailState).2 =
      [Effect.broadcastEvent deDE.toTag, Effect.persistWrite deDE.toTag,
       Effect.signalSet deDE] :=
  ⟨rfl, c4_order_amended enUS deDE demoAvailState rfl⟩

/-- C5 counterexample: initialization with the explicit identifier "en-US"
over a LocalStorage backend storing the parseable tag "de" yields current
language "de": the stored value does override the explicit one. -/
theorem c5_explicit_overridden_counterexample :
    (provide_langid_context (some enUS) none storageDe).map LangState.langid =
      some deDE ∧
    deDE ≠ enUS := by
  refine ⟨by decide, by decide⟩

/-- C5 amended: an explicit identifier skips the navigator lookup (the result
is independent of the navigator language) and initialization cannot fail,
but with a LocalStorage source the backend is still consulted: a stored
parseable value overrides the explicit identifier, which serves only as the
initial value and the parse fallback. -/
theorem c5_explicit_amended (e : LanguageIdentifier) (navLang : Option String)
    (storage : StorageState) :
    provide_langid_context (some e) navLang storage =
      some ⟨(match localStorageGet storage with
             | some s => (LanguageIdentifier.fromStr s).getD e
             | none => e), storage, [], 0⟩ := by
  unfold provide_langid_context
  cases hg : localStorageGet storage <;> simp [hg]

/-- C6: at the failing input (a change event carrying "de" while the storage
backend is unavailable) the compiled crate's listener panics inside the
throwing `utils.rs` `set` before updating the in-memory value, while the
`ctx.rs` handler the claim describes logs the failure and still sets the
in-memory value to the newly set language. -/
theorem c6_write_failure_code_bug :
    handleLangChangeEventLib enUS (some tagDe) cexDown = none ∧
    (handleLangChangeEvent enUS (some tagDe) cexDown).1.langid = deDE ∧
    (handleLangChangeEvent enUS (some tagDe) cexDown).1.errors = cexDown.errors + 1 := by
  refine ⟨by decide, by decide, by decide⟩

/-- C7: when the Localizer returns an error for the built query and no custom
error handler is supplied, the resulting Message has its id and value both
equal to the requested message id and an empty attribute map. -/
theorem c7_default_error_placeholder (locales : Localizer) (messageId : String)
    (mainArgs : List (String × String))
    (attrArgs : List (String × String × String))
    (langid : LanguageIdentifier) (errs : List String)
    (h : locales langid (buildQuery messageId mainArgs attrArgs) = Except.error errs) :
    rtrMessageFn locales messageId mainArgs attrArgs langid =
      ⟨messageId, messageId, []⟩ := by
  simp [rtrMessageFn, h]

/-- C7 witness: the theorem applied to an always-failing Localizer. -/
theorem c7_default_error_placeholder_witness :
    failingLocales enUS (buildQuery demoGreeting [] []) = Except.error [demoErr] ∧
    rtrMessageFn failingLocales demoGreeting [] [] enUS =
      ⟨demoGreeting, demoGreeting, []⟩ :=
  ⟨rfl, c7_default_error_placeholder failingLocales demoGreeting [] [] enUS [demoErr] rfl⟩

/-- C8: for every attribute name absent from the current Message's attribute
map, both `attr` and `attr_untracked` return the literal attribute name as a
placeholder; both are total String-valued reads, so the caller never fails. -/
theorem c8_missing_attr_returns_name (rm : ReactiveMessage)
    (langid : LanguageIdentifier) (name : String)
    (h : attrsFind (rm.compute langid).attrs name = none) :
    rm.attr langid name = name ∧ rm.attr_untracked langid name = name := by
  simp [ReactiveMessage.attr, ReactiveMessage.attr_untracked, h]

/-- C8 witness: the theorem applied to a Message with an empty attribute map
and the absent attribute name "x". -/
theorem c8_missing_attr_returns_name_witness :
    attrsFind (demoPrecomputed.compute enUS).attrs demoKeyA = none ∧
    (demoPrecomputed.attr enUS demoKeyA = demoKeyA ∧
     demoPrecomputed.attr_untracked enUS demoKeyA = demoKeyA) :=
  ⟨by decide, c8_missing_attr_returns_name demoPrecomputed enUS demoKeyA (by decide)⟩

/-- C9 counterexample: two repeated tracked reads of the same attribute with
identical arguments within one Message generation (unchanged language) issue
two Localizer query invocations, not exactly one: the derived signal re-runs
the query closure on every read and no per-attribute memoization exists. -/
theorem c9_memoization_counterexample :
    (rtrAttrReadsCounted demoLocales demoGreeting [] [] enUS demoKeyA 2 0).2 = 2 ∧
    (rtrAttrReadsCounted demoLocales demoGreeting [] [] enUS demoKeyA 2 0).2 ≠ 1 := by
  refine ⟨by decide, by decide⟩

/-- C9 amended: within one Message generation, repeated attribute reads with
identical arguments all return the same value, but each tracked read invokes
the Localizer's full message query once more — n reads add n invocations
(no memoization); a read after a language change simply queries under the
new language. -/
theorem c9_reads_amended (locales : Localizer) (messageId : String)
    (mainArgs : List (String × String))
    (attrArgs : List (String × String × String))
    (langid : LanguageIdentifier) (name : String) (n calls : Nat) :
    rtrAttrReadsCounted locales messageId mainArgs attrArgs langid name n calls =
      (List.replicate n
        ((rtrExpand locales messageId mainArgs attrArgs).attr langid name),
       calls + n) := by
  induction n generalizing calls with
  | zero => simp [rtrAttrReadsCounted]
  | succ k ih =>
      simp [rtrAttrReadsCounted, rtrAttrReadCounted, ih, List.replicate_succ]
      omega

/-- C10: with no language context provided, `use_langid` returns `None`
without panicking while `expect_langid` panics; with a context provided,
both return the same read-only handle of the context's signal. -/
theorem c10_use_vs_expect :
    use_langid none = none ∧
    expect_langid none = PanicOr.panicked ∧
    ∀ c : LangIdContext,
      use_langid (some c) = some c.signal.read_only ∧
      expect_langid (some c) = PanicOr.ok c.signal.read_only :=
  ⟨rfl, rfl, fun _ => ⟨rfl, rfl⟩⟩

end I18nLeptos
